import Mathlib

/-!
Verification development for the age-verification subsystem of the
food-delivery backend (models/ageVerification.js, the age-verification
GraphQL resolvers, the order middleware `checkAgeVerificationForItems`,
the client hook `checkCartRestrictions`, and the validation helpers
`validateAge` / `validateDocumentType`).

Times are modelled as `Int` milliseconds since the Unix epoch (JS `Date`
values, UTC).  Calendar components (`getFullYear`, `getMonth`, `getDate`)
are recovered with the standard civil-from-days algorithm, so the
calendar-based age computation of the Mongoose virtual is reproduced
exactly.  An unparseable date (`new Date(garbage)`, an Invalid Date whose
comparisons and year arithmetic are all false/NaN) is modelled as `none`.
-/

namespace AgeVerif

/-- Milliseconds in one day. -/
def msPerDay : Int := 86400000

/-- A civil (proleptic Gregorian) calendar date; `month` is 1-based. -/
structure Civil where
  year : Int
  month : Int
  day : Int
  deriving DecidableEq, Repr

/-- Civil date from days since 1970-01-01 (Howard Hinnant's algorithm,
with floor division so negative days are handled). -/
def civilFromDays (z0 : Int) : Civil :=
  let z := z0 + 719468
  let era := z.fdiv 146097
  let doe := z - era * 146097
  let yoe := (doe - doe.fdiv 1460 + doe.fdiv 36524 - doe.fdiv 146096).fdiv 365
  let y := yoe + era * 400
  let doy := doe - (365 * yoe + yoe.fdiv 4 - yoe.fdiv 100)
  let mp := (5 * doy + 2).fdiv 153
  let d := doy - (153 * mp + 2).fdiv 5 + 1
  let m := mp + (if mp < 10 then 3 else -9)
  { year := y + (if m ≤ 2 then 1 else 0), month := m, day := d }

/-- Days since 1970-01-01 from a civil date (inverse of `civilFromDays`;
out-of-range day/month roll over exactly as JS `Date` does). -/
def daysFromCivil (y0 m d : Int) : Int :=
  let y := if m ≤ 2 then y0 - 1 else y0
  let era := y.fdiv 400
  let yoe := y - era * 400
  let mp := m + (if 2 < m then -3 else 9)
  let doy := (153 * mp + 2).fdiv 5 + d - 1
  let doe := yoe * 365 + yoe.fdiv 4 - yoe.fdiv 100 + doy
  era * 146097 + doe - 719468

/-- Civil date of a millisecond timestamp (UTC). -/
def civilOfMs (ms : Int) : Civil := civilFromDays (ms.fdiv msPerDay)

/-- Millisecond timestamp of a civil date at a given millisecond-of-day. -/
def msOfCivil (c : Civil) (msOfDay : Int) : Int :=
  daysFromCivil c.year c.month c.day * msPerDay + msOfDay

/-- The `age` virtual of `ageVerificationSchema`:
`today.getFullYear() - birth.getFullYear()`, minus one when the month/day
of `today` has not yet reached the birthday. -/
def calendarAge (dateOfBirth now : Int) : Int :=
  let t := civilOfMs now
  let b := civilOfMs dateOfBirth
  let age := t.year - b.year
  let monthDiff := t.month - b.month
  if monthDiff < 0 ∨ (monthDiff = 0 ∧ t.day < b.day) then age - 1 else age

/-- `status` enum of `ageVerificationSchema`. -/
inductive Status
  | PENDING
  | VERIFIED
  | REJECTED
  | EXPIRED
  deriving DecidableEq, Repr

/-- The embedded `document` subdocument of `ageVerificationSchema`. -/
structure Document where
  url : String
  thumbnailUrl : String
  publicId : String
  documentType : String
  fileSize : Int
  mimeType : String
  originalName : String
  deriving DecidableEq, Repr

/-- One `AgeVerification` record (models/ageVerification.js).  Optional
schema fields are `Option`; `expiryDate` is always populated because the
schema gives it a default at creation. -/
structure AgeVerification where
  user : String
  document : Document
  status : Status
  dateOfBirth : Int
  verifiedAt : Option Int
  expiryDate : Int
  rejectionReason : Option String
  verifiedBy : Option String
  restrictedItemTypes : List String
  submittedAt : Int
  reviewedAt : Option Int
  lastAccessedAt : Option Int
  accessCount : Int
  deriving DecidableEq, Repr

/-- The `age` virtual on a record. -/
def AgeVerification.age (r : AgeVerification) (now : Int) : Int :=
  calendarAge r.dateOfBirth now

/-- The `isValid` virtual:
`status === 'VERIFIED' && expiryDate > new Date() && age >= 18`. -/
def AgeVerification.isValid (r : AgeVerification) (now : Int) : Bool :=
  r.status == Status.VERIFIED && decide (now < r.expiryDate)
    && decide (18 ≤ r.age now)

/-- The `canPurchaseRestricted` virtual: `isValid && age >= 21`. -/
def AgeVerification.canPurchaseRestricted (r : AgeVerification) (now : Int) : Bool :=
  r.isValid now && decide (21 ≤ r.age now)

/-- The `getReviewPriority` instance method.  The source compares
`hoursWaiting = (now - submittedAt) / 3600000` (a float) against the band
bounds; since the bounds times 3600000 are exactly representable and the
spacing of doubles near them is far below one millisecond, the float
comparison agrees with the exact integer comparison used here. -/
def AgeVerification.getReviewPriority (r : AgeVerification) (now : Int) : Nat :=
  let msWaiting := now - r.submittedAt
  if 48 * 3600000 < msWaiting then 1
  else if 24 * 3600000 < msWaiting then 2
  else if 12 * 3600000 < msWaiting then 3
  else 4

/-- The `canUserPurchaseRestricted` static.  `findOne` with the filter
`{user, status: 'VERIFIED', expiryDate: {$gt: now}}` is modelled as
`find?` over the record collection; the `switch (itemType)` returns
`age >= 21` for the three known item types and `false` otherwise. -/
def canUserPurchaseRestricted (recs : List AgeVerification) (userId : String)
    (itemType : String) (now : Int) : Bool :=
  match recs.find? (fun r =>
      r.user == userId && r.status == Status.VERIFIED && decide (now < r.expiryDate)) with
  | none => false
  | some v =>
    if itemType == "TOBACCO" then decide (21 ≤ v.age now)
    else if itemType == "ALCOHOL" then decide (21 ≤ v.age now)
    else if itemType == "BOTH" then decide (21 ≤ v.age now)
    else false

/-- The ordering key of the review queue (`sort({submittedAt: 1})`). -/
def submittedLE (a b : AgeVerification) : Prop := a.submittedAt ≤ b.submittedAt

instance : DecidableRel submittedLE := fun a b =>
  inferInstanceAs (Decidable (a.submittedAt ≤ b.submittedAt))

/-- The `getPendingReviews` static: filter `status: 'PENDING'`, sort by
ascending `submittedAt`, then `skip(offset)` and `limit(limit)` (MongoDB
always applies sort, then skip, then limit). -/
def getPendingReviews (recs : List AgeVerification) (limit offset : Nat) :
    List AgeVerification :=
  ((((recs.filter (fun r => r.status == Status.PENDING)).insertionSort
      submittedLE).drop offset).take limit)

/-- The `cleanupExpired` static (the Expiry Sweeper):
`updateMany({status: 'VERIFIED', expiryDate: {$lt: now}}, {status: 'EXPIRED'})`. -/
def cleanupExpired (recs : List AgeVerification) (now : Int) : List AgeVerification :=
  recs.map (fun r =>
    if r.status == Status.VERIFIED && decide (r.expiryDate < now) then
      { r with status := Status.EXPIRED }
    else r)

/-- The `AgeVerificationInfo` payload returned by the status query and
the `User.ageVerification` field resolver. -/
structure AgeVerificationInfo where
  isVerified : Bool
  status : Status
  canPurchaseRestricted : Bool
  restrictedItemTypes : List String
  verificationExpiryDate : Option Int
  age : Option Int
  deriving DecidableEq, Repr

/-- The `getAgeVerificationStatus` query resolver for an authenticated
user: when `findOne` returns nothing it answers with the literal
no-record payload (whose `status` is the string `'PENDING'`), otherwise
it serialises the record's virtuals. -/
def getAgeVerificationStatus (verification : Option AgeVerification) (now : Int) :
    AgeVerificationInfo :=
  match verification with
  | none =>
    { isVerified := false
      status := Status.PENDING
      canPurchaseRestricted := false
      restrictedItemTypes := []
      verificationExpiryDate := none
      age := none }
  | some v =>
    { isVerified := v.isValid now
      status := v.status
      canPurchaseRestricted := v.canPurchaseRestricted now
      restrictedItemTypes := v.restrictedItemTypes
      verificationExpiryDate := some v.expiryDate
      age := some (v.age now) }

/-- The `User.ageVerification` field resolver; its body is textually the
same lookup-and-serialise as `getAgeVerificationStatus`. -/
def ageVerificationField (verification : Option AgeVerification) (now : Int) :
    AgeVerificationInfo :=
  match verification with
  | none =>
    { isVerified := false
      status := Status.PENDING
      canPurchaseRestricted := false
      restrictedItemTypes := []
      verificationExpiryDate := none
      age := none }
  | some v =>
    { isVerified := v.isValid now
      status := v.status
      canPurchaseRestricted := v.canPurchaseRestricted now
      restrictedItemTypes := v.restrictedItemTypes
      verificationExpiryDate := some v.expiryDate
      age := some (v.age now) }

/-- `validateDocumentType` from the validation helpers. -/
def validateDocumentType (documentType : String) : Bool :=
  (["DRIVERS_LICENSE", "PASSPORT", "NATIONAL_ID", "STATE_ID"] : List String).contains
    documentType

/-- The `minBirthDate` computed inside `validateAge`: today's date with
`setFullYear(year - 120)` (same month/day/millisecond-of-day; Feb 29 in a
non-leap target year rolls to Mar 1, as JS does). -/
def minBirthDate120 (now : Int) : Int :=
  let day := now.fdiv msPerDay
  let c := civilFromDays day
  msOfCivil { c with year := c.year - 120 } (now - day * msPerDay)

/-- `validateAge` from the validation helpers, at the default
`minimumAge = 18` used by the upload resolver.  `none` models an Invalid
Date (every comparison on NaN is false, and `NaN >= 18` is false).  The
`moment().diff(birthDate, 'years')` whole-year difference is the same
calendar computation as the schema's `age` virtual at day resolution. -/
def validateAge (dateOfBirth : Option Int) (now : Int) : Bool :=
  match dateOfBirth with
  | none => false
  | some d =>
    if now < d then false
    else if d < minBirthDate120 now then false
    else decide (18 ≤ calendarAge d now)

/-- Input of the `uploadAgeVerificationDocument` mutation;
`dateOfBirth` is the result of `new Date(input.dateOfBirth)`. -/
structure UploadInput where
  documentType : String
  dateOfBirth : Option Int
  deriving DecidableEq, Repr

/-- The uploaded file as the resolver sees it. -/
structure UploadFile where
  mimetype : String
  size : Int
  filename : String
  deriving DecidableEq, Repr

/-- Failure modes of the upload mutation, in source order. -/
inductive UploadError
  | invalidDocumentType
  | invalidDateOfBirth
  | alreadyVerified
  | invalidFileType
  | fileTooLarge
  deriving DecidableEq, Repr

instance {ε α : Type} [DecidableEq ε] [DecidableEq α] : DecidableEq (Except ε α) :=
  fun x y =>
  match x, y with
  | Except.ok a, Except.ok b =>
    if h : a = b then isTrue (by simp [h]) else isFalse (by simp [h])
  | Except.error a, Except.error b =>
    if h : a = b then isTrue (by simp [h]) else isFalse (by simp [h])
  | Except.ok _, Except.error _ => isFalse (by simp)
  | Except.error _, Except.ok _ => isFalse (by simp)

/-- Outcome of one upload call: the returned record or error, how many
assets were written to storage during the call (document + thumbnail on
the success path), and whether a pre-existing record was deleted. -/
structure UploadOutcome where
  result : Except UploadError AgeVerification
  assetsStored : Nat
  oldDeleted : Bool
  deriving DecidableEq, Repr

/-- The record built by the upload resolver: `status: 'PENDING'`,
`restrictedItemTypes: ['BOTH']`, `submittedAt` defaulting to now and
`expiryDate` defaulting to `Date.now() + 365 * 24 * 60 * 60 * 1000`
(the schema comment: verification expires after 1 year). -/
def newVerificationRecord (userId : String) (input : UploadInput) (file : UploadFile)
    (dob now : Int) : AgeVerification :=
  { user := userId
    document :=
      { url := "age-verification/" ++ userId
        thumbnailUrl := "age-verification/" ++ userId ++ "/thumbnail"
        publicId := "age-verification/" ++ userId
        documentType := input.documentType
        fileSize := file.size
        mimeType := file.mimetype
        originalName := file.filename }
    status := Status.PENDING
    dateOfBirth := dob
    verifiedAt := none
    expiryDate := now + 365 * msPerDay
    rejectionReason := none
    verifiedBy := none
    restrictedItemTypes := ["BOTH"]
    submittedAt := now
    reviewedAt := none
    lastAccessedAt := none
    accessCount := 0 }

/-- The `uploadAgeVerificationDocument` mutation for an authenticated
user, checks in source order: document type, date of birth, existing
`VERIFIED` record (no expiry condition), mime type, 5 MB size cap; then
the two storage writes, deletion of any existing record, and creation of
the new `PENDING` record. -/
def uploadAgeVerificationDocument (existing : Option AgeVerification) (userId : String)
    (input : UploadInput) (file : UploadFile) (now : Int) : UploadOutcome :=
  if ¬ validateDocumentType input.documentType then
    ⟨Except.error UploadError.invalidDocumentType, 0, false⟩
  else if ¬ validateAge input.dateOfBirth now then
    ⟨Except.error UploadError.invalidDateOfBirth, 0, false⟩
  else
    match input.dateOfBirth with
    | none => ⟨Except.error UploadError.invalidDateOfBirth, 0, false⟩
    | some dob =>
      if (match existing with
          | some e => e.status == Status.VERIFIED
          | none => false) then
        ⟨Except.error UploadError.alreadyVerified, 0, false⟩
      else if ¬ (["image/jpeg", "image/png"] : List String).contains file.mimetype then
        ⟨Except.error UploadError.invalidFileType, 0, false⟩
      else if 5 * 1024 * 1024 < file.size then
        ⟨Except.error UploadError.fileTooLarge, 0, false⟩
      else
        ⟨Except.ok (newVerificationRecord userId input file dob now), 2, existing.isSome⟩

/-- The user's stored record after an upload call: replaced on success,
untouched on any error. -/
def uploadState (existing : Option AgeVerification) (userId : String)
    (input : UploadInput) (file : UploadFile) (now : Int) : Option AgeVerification :=
  match (uploadAgeVerificationDocument existing userId input file now).result with
  | Except.ok r => some r
  | Except.error _ => existing

/-- Input of the `reviewAgeVerification` mutation
(`AgeVerificationReviewInput`: `rejectionReason` and `dateOfBirth` are
nullable). -/
structure ReviewInput where
  userId : String
  status : Status
  rejectionReason : Option String
  dateOfBirth : Option Int
  deriving DecidableEq, Repr

/-- Failure modes of the review mutation. -/
inductive ReviewError
  | notFound
  | alreadyReviewed
  deriving DecidableEq, Repr

/-- The `reviewAgeVerification` mutation (admin caller): requires an
existing record in status `PENDING`, then sets `status`, `verifiedBy`
and `reviewedAt` unconditionally; on `REJECTED` it copies the supplied
`rejectionReason` (with no non-empty check), on `VERIFIED` it sets
`verifiedAt` and optionally overwrites `dateOfBirth`.  `expiryDate` is
never touched. -/
def reviewAgeVerification (verification : Option AgeVerification) (input : ReviewInput)
    (reviewerId : String) (now : Int) : Except ReviewError AgeVerification :=
  match verification with
  | none => Except.error ReviewError.notFound
  | some v =>
    if v.status != Status.PENDING then Except.error ReviewError.alreadyReviewed
    else
      let v1 := { v with status := input.status
                         verifiedBy := some reviewerId
                         reviewedAt := some now }
      if input.status == Status.REJECTED then
        Except.ok { v1 with rejectionReason := input.rejectionReason }
      else if input.status == Status.VERIFIED then
        Except.ok { v1 with verifiedAt := some now
                            dateOfBirth := match input.dateOfBirth with
                              | some d => d
                              | none => v1.dateOfBirth }
      else Except.ok v1

/-- The stored record after a review call: replaced on success,
untouched on any error. -/
def reviewState (verification : Option AgeVerification) (input : ReviewInput)
    (reviewerId : String) (now : Int) : Option AgeVerification :=
  match reviewAgeVerification verification input reviewerId now with
  | Except.ok r => some r
  | Except.error _ => verification

/-- A catalog food item, with the restriction flags the cart checks read. -/
structure Food where
  id : String
  title : String
  isRestrictedItem : Bool
  restrictedItemType : Option String
  deriving DecidableEq, Repr

/-- The filter the order middleware applies to find restricted items:
`isRestrictedItem` and a `restrictedItemType` among the three enums. -/
def isRestrictedFood (f : Food) : Bool :=
  f.isRestrictedItem &&
    (f.restrictedItemType == some "TOBACCO" || f.restrictedItemType == some "ALCOHOL"
      || f.restrictedItemType == some "BOTH")

/-- The distinct `GraphQLError`s thrown by `checkAgeVerificationForItems`,
one constructor per distinct message in the source.  Note the source has
no expiry-specific branch for a record whose `status` is `'EXPIRED'`: the
non-`VERIFIED` ternary produces the pending text for `PENDING` and the
rejected text for every other status, `EXPIRED` included. -/
inductive CartBlock
  | requiredUploadMsg
  | statusPendingMsg
  | statusRejectedMsg
  | expiredMsg
  | notEligibleMsg (title : String)
  deriving DecidableEq, Repr

/-- The backend order middleware `checkAgeVerificationForItems` for an
authenticated user: `.ok true` when nothing blocks, `.error` with the
thrown message otherwise.  `findOne({user})` is `find?` on the shared
record collection; the per-item loop re-queries through the
`canUserPurchaseRestricted` static and throws at the first failing item. -/
def checkAgeVerificationForItems (recs : List AgeVerification) (userId : String)
    (foods : List Food) (now : Int) : Except CartBlock Bool :=
  if foods.isEmpty then Except.ok true
  else
    let restrictedItems := foods.filter isRestrictedFood
    if restrictedItems.isEmpty then Except.ok true
    else
      match recs.find? (fun r => r.user == userId) with
      | none => Except.error CartBlock.requiredUploadMsg
      | some v =>
        if v.status != Status.VERIFIED then
          Except.error (if v.status == Status.PENDING then CartBlock.statusPendingMsg
                        else CartBlock.statusRejectedMsg)
        else if ¬ v.isValid now then Except.error CartBlock.expiredMsg
        else
          match restrictedItems.find? (fun f =>
              !canUserPurchaseRestricted recs userId (f.restrictedItemType.getD "") now) with
          | some f => Except.error (CartBlock.notEligibleMsg f.title)
          | none => Except.ok true

/-- One cart entry as the client hook sees it. -/
structure CartItem where
  food : Food
  quantity : Int
  deriving DecidableEq, Repr

/-- A warning pushed by the client hook; `type` is the warning-type
string so every type the claim mentions is expressible. -/
structure Warning where
  type : String
  itemId : String
  deriving DecidableEq, Repr

/-- Result of the client hook's `checkCartRestrictions`. -/
structure CartCheckResult where
  warnings : List Warning
  canCheckout : Bool
  deriving DecidableEq, Repr

/-- The client hook's `canPurchaseRestrictedItem`: `false` with no status
payload, else requires `isVerified`, `canPurchaseRestricted`, and the
item type (or `'BOTH'`) among `restrictedItemTypes`. -/
def clientCanPurchaseRestrictedItem (vs : Option AgeVerificationInfo)
    (itemType : String) : Bool :=
  match vs with
  | none => false
  | some s =>
    if ¬ s.isVerified then false
    else if ¬ s.canPurchaseRestricted then false
    else s.restrictedItemTypes.contains itemType || s.restrictedItemTypes.contains "BOTH"

/-- The warning the client hook pushes for one cart item, `none` when the
item is unrestricted or purchasable.  The branch order is the source's:
not-verified (which includes a missing payload) wins, then `PENDING`,
then `REJECTED`, else the age-restriction warning. -/
def cartItemWarning (vs : Option AgeVerificationInfo) (item : CartItem) :
    Option Warning :=
  if ¬ item.food.isRestrictedItem then none
  else if clientCanPurchaseRestrictedItem vs (item.food.restrictedItemType.getD "") then
    none
  else
    let isVer := match vs with
      | some s => s.isVerified
      | none => false
    let st : Option Status := vs.map (fun s => s.status)
    some
      { type :=
          if !isVer then "AGE_VERIFICATION_REQUIRED"
          else if st == some Status.PENDING then "VERIFICATION_PENDING"
          else if st == some Status.REJECTED then "VERIFICATION_REJECTED"
          else "AGE_RESTRICTION"
        itemId := item.food.id }

/-- The client hook's `checkCartRestrictions`: collect the per-item
warnings; `canCheckout` is cleared exactly when some restricted item is
not purchasable, i.e. when a warning was pushed. -/
def checkCartRestrictions (vs : Option AgeVerificationInfo) (items : List CartItem) :
    CartCheckResult :=
  let warnings := items.filterMap (cartItemWarning vs)
  { warnings := warnings, canCheckout := warnings.isEmpty }

end AgeVerif

-- sanity checks for the calendar model (epoch date, leap handling)
example : AgeVerif.civilFromDays 0 = ⟨1970, 1, 1⟩ := by decide
example : AgeVerif.daysFromCivil 1970 1 1 = 0 := by decide
example : AgeVerif.daysFromCivil 2000 2 29 = 11016 := by decide
example : AgeVerif.civilFromDays 11016 = ⟨2000, 2, 29⟩ := by decide
example : AgeVerif.calendarAge (AgeVerif.daysFromCivil 1990 6 15 * AgeVerif.msPerDay)
    (AgeVerif.daysFromCivil 2024 6 14 * AgeVerif.msPerDay) = 33 := by decide
example : AgeVerif.calendarAge (AgeVerif.daysFromCivil 1990 6 15 * AgeVerif.msPerDay)
    (AgeVerif.daysFromCivil 2024 6 15 * AgeVerif.msPerDay) = 34 := by decide

namespace AgeVerif

/-- Millisecond timestamp of a civil date at midnight UTC. -/
def dayMs (y m d : Int) : Int := daysFromCivil y m d * msPerDay

/-- Modelled from the spec: the expiry the spec claims the review writes,
`verifiedAt + verificationExpiryMonths` with calendar-month addition
(no such config or computation exists in the source; the schema default
is 365 days from creation). -/
def specAddMonths (ms n : Int) : Int :=
  let day := ms.fdiv msPerDay
  let c := civilFromDays day
  let total := c.year * 12 + (c.month - 1) + n
  msOfCivil { year := total.fdiv 12, month := total.emod 12 + 1, day := c.day }
    (ms - day * msPerDay)

/-- A concrete stored document. -/
def sampleDoc : Document :=
  { url := "age-verification/u1"
    thumbnailUrl := "age-verification/u1/thumbnail"
    publicId := "age-verification/u1"
    documentType := "PASSPORT"
    fileSize := 1000
    mimeType := "image/jpeg"
    originalName := "id.jpg" }

/-- Evaluation instant used by the concrete examples: 2024-06-01 UTC. -/
def sampleNow : Int := dayMs 2024 6 1

/-- A concrete `PENDING` record submitted 2024-01-01 by an adult born
1990-01-01; `expiryDate` carries the schema's creation default of
`submittedAt + 365` days. -/
def pendingRec : AgeVerification :=
  { user := "u1"
    document := sampleDoc
    status := Status.PENDING
    dateOfBirth := dayMs 1990 1 1
    verifiedAt := none
    expiryDate := dayMs 2024 1 1 + 365 * msPerDay
    rejectionReason := none
    verifiedBy := none
    restrictedItemTypes := ["BOTH"]
    submittedAt := dayMs 2024 1 1
    reviewedAt := none
    lastAccessedAt := none
    accessCount := 0 }

/-- A concrete record verified 2022-01-05 whose `expiryDate` (2023-01-05)
is long past at `sampleNow`, but whose `status` is still `VERIFIED`
(the Sweeper has not run). -/
def lapsedVerifiedRec : AgeVerification :=
  { pendingRec with
    status := Status.VERIFIED
    submittedAt := dayMs 2022 1 1
    verifiedAt := some (dayMs 2022 1 5)
    reviewedAt := some (dayMs 2022 1 5)
    verifiedBy := some "admin0"
    expiryDate := dayMs 2023 1 5 }

/-- A concrete rejected record. -/
def rejectedRec : AgeVerification :=
  { pendingRec with
    status := Status.REJECTED
    reviewedAt := some (dayMs 2024 1 2)
    verifiedBy := some "admin0"
    rejectionReason := some "blurry" }

/-- A review input approving the record, with no corrected
date of birth. -/
def verifyInput : ReviewInput :=
  { userId := "u1", status := Status.VERIFIED, rejectionReason := none,
    dateOfBirth := none }

/-- A review input rejecting the record with no reason supplied. -/
def rejectNoReason : ReviewInput :=
  { userId := "u1", status := Status.REJECTED, rejectionReason := none,
    dateOfBirth := none }

/-- The review instant of the C1 counterexample: 2025-03-01, more than a
year after `pendingRec` was submitted. -/
def c1ReviewTime : Int := dayMs 2025 3 1

end AgeVerif

namespace AgeVerif

/-- **C1** counterexample: reviewing the concrete `PENDING` record as
`VERIFIED` on 2025-03-01 succeeds and stamps `verifiedAt` with the review
time, but the resulting `expiryDate` is the untouched creation default —
it lies *before* `verifiedAt` and differs from `verifiedAt` plus 24
calendar months, so the claimed equation fails. -/
theorem c1_review_expiry_counterexample :
    reviewAgeVerification (some pendingRec) verifyInput "admin1" c1ReviewTime =
      Except.ok { pendingRec with
        status := Status.VERIFIED
        verifiedBy := some "admin1"
        reviewedAt := some c1ReviewTime
        verifiedAt := some c1ReviewTime } ∧
    pendingRec.expiryDate < c1ReviewTime ∧
    pendingRec.expiryDate ≠ specAddMonths c1ReviewTime 24 :=
  ⟨rfl, by decide, by decide⟩

/-- **C1** (amended): a successful `VERIFIED` review of a `PENDING`
record sets `verifiedAt = reviewedAt = now` and the reviewer, but leaves
`expiryDate` exactly as it was; `expiryDate` is fixed at creation to
`submittedAt + 365` days (the schema default), not `verifiedAt` plus 24
months. -/
theorem c1_review_verified_amended (r : AgeVerification) (input : ReviewInput)
    (reviewerId : String) (now : Int)
    (hp : r.status = Status.PENDING) (hv : input.status = Status.VERIFIED) :
    reviewAgeVerification (some r) input reviewerId now =
      Except.ok { r with
        status := Status.VERIFIED
        verifiedBy := some reviewerId
        reviewedAt := some now
        verifiedAt := some now
        dateOfBirth := match input.dateOfBirth with
          | some d => d
          | none => r.dateOfBirth } ∧
    (∀ r2, reviewAgeVerification (some r) input reviewerId now = Except.ok r2 →
      r2.expiryDate = r.expiryDate ∧ r2.verifiedAt = some now) ∧
    (∀ uid inp fl dob t,
      (newVerificationRecord uid inp fl dob t).expiryDate = t + 365 * msPerDay) := by
  have hmain : reviewAgeVerification (some r) input reviewerId now =
      Except.ok { r with
        status := Status.VERIFIED
        verifiedBy := some reviewerId
        reviewedAt := some now
        verifiedAt := some now
        dateOfBirth := match input.dateOfBirth with
          | some d => d
          | none => r.dateOfBirth } := by
    simp [reviewAgeVerification, hp, hv]
  refine ⟨hmain, ?_, fun _ _ _ _ _ => rfl⟩
  intro r2 h2
  rw [hmain] at h2
  cases h2
  exact ⟨rfl, rfl⟩

/-- Witness for the amended C1 at the concrete pending record. -/
theorem c1_review_verified_amended_witness :
    pendingRec.status = Status.PENDING ∧ verifyInput.status = Status.VERIFIED ∧
    (reviewAgeVerification (some pendingRec) verifyInput "admin1" c1ReviewTime =
      Except.ok { pendingRec with
        status := Status.VERIFIED
        verifiedBy := some "admin1"
        reviewedAt := some c1ReviewTime
        verifiedAt := some c1ReviewTime
        dateOfBirth := match verifyInput.dateOfBirth with
          | some d => d
          | none => pendingRec.dateOfBirth } ∧
     (∀ r2, reviewAgeVerification (some pendingRec) verifyInput "admin1" c1ReviewTime =
        Except.ok r2 → r2.expiryDate = pendingRec.expiryDate ∧ r2.verifiedAt = some c1ReviewTime) ∧
     (∀ uid inp fl dob t,
       (newVerificationRecord uid inp fl dob t).expiryDate = t + 365 * msPerDay)) :=
  ⟨rfl, rfl, c1_review_verified_amended pendingRec verifyInput "admin1" c1ReviewTime rfl rfl⟩

/-- **C4** counterexample: rejecting the concrete `PENDING` record with
an absent `rejectionReason` does *not* fail with any missing-reason
error; it succeeds and stores a `REJECTED` record whose
`rejectionReason` is null. -/
theorem c4_reject_missing_reason_counterexample :
    reviewAgeVerification (some pendingRec) rejectNoReason "admin1" sampleNow =
      Except.ok { pendingRec with
        status := Status.REJECTED
        verifiedBy := some "admin1"
        reviewedAt := some sampleNow } ∧
    pendingRec.rejectionReason = none ∧ rejectNoReason.rejectionReason = none :=
  ⟨rfl, rfl, rfl⟩

/-- **C4** (amended): a `REJECTED` review of a `PENDING` record never
checks `rejectionReason`; it succeeds for any supplied value, null
included, and copies that value into the record — so a `REJECTED` record
can carry a null `rejectionReason`. -/
theorem c4_reject_copies_reason (r : AgeVerification) (input : ReviewInput)
    (reviewerId : String) (now : Int)
    (hp : r.status = Status.PENDING) (hr : input.status = Status.REJECTED) :
    reviewAgeVerification (some r) input reviewerId now =
      Except.ok { r with
        status := Status.REJECTED
        verifiedBy := some reviewerId
        reviewedAt := some now
        rejectionReason := input.rejectionReason } := by
  simp [reviewAgeVerification, hp, hr]

/-- Witness for the amended C4 with a null reason. -/
theorem c4_reject_copies_reason_witness :
    pendingRec.status = Status.PENDING ∧ rejectNoReason.status = Status.REJECTED ∧
    reviewAgeVerification (some pendingRec) rejectNoReason "admin1" sampleNow =
      Except.ok { pendingRec with
        status := Status.REJECTED
        verifiedBy := some "admin1"
        reviewedAt := some sampleNow
        rejectionReason := rejectNoReason.rejectionReason } :=
  ⟨rfl, rfl, c4_reject_copies_reason pendingRec rejectNoReason "admin1" sampleNow rfl rfl⟩

/-- **C5**: reviewing a record whose status is not `PENDING` fails with
the already-reviewed error for every decision, and the stored record is
left exactly as it was. -/
theorem c5_review_non_pending (v : AgeVerification) (input : ReviewInput)
    (reviewerId : String) (now : Int) (h : v.status ≠ Status.PENDING) :
    reviewAgeVerification (some v) input reviewerId now =
      Except.error ReviewError.alreadyReviewed ∧
    reviewState (some v) input reviewerId now = some v := by
  have hmain : reviewAgeVerification (some v) input reviewerId now =
      Except.error ReviewError.alreadyReviewed := by
    simp [reviewAgeVerification, bne_iff_ne, h]
  exact ⟨hmain, by simp [reviewState, hmain]⟩

/-- Witness for C5 at a lapsed `VERIFIED` record. -/
theorem c5_review_non_pending_witness :
    lapsedVerifiedRec.status ≠ Status.PENDING ∧
    (reviewAgeVerification (some lapsedVerifiedRec) verifyInput "admin1" sampleNow =
        Except.error ReviewError.alreadyReviewed ∧
      reviewState (some lapsedVerifiedRec) verifyInput "admin1" sampleNow =
        some lapsedVerifiedRec) :=
  ⟨by decide, c5_review_non_pending lapsedVerifiedRec verifyInput "admin1" sampleNow
    (by decide)⟩

/-- A concrete `VERIFIED`, unexpired record for a minor (born 2010):
possible because the review mutation never re-validates age. -/
def youngVerifiedRec : AgeVerification :=
  { pendingRec with
    status := Status.VERIFIED
    dateOfBirth := dayMs 2010 1 1
    verifiedAt := some (dayMs 2024 1 2)
    reviewedAt := some (dayMs 2024 1 2)
    verifiedBy := some "admin0"
    expiryDate := dayMs 2030 1 1 }

/-- **C6** counterexample: `youngVerifiedRec` is `VERIFIED` with
`expiryDate` in the future, yet `isValid` is `false` — the virtual also
requires `age >= 18`, so `isValid` is not
`status == VERIFIED && now < expiryDate`. -/
theorem c6_isValid_counterexample :
    youngVerifiedRec.status = Status.VERIFIED ∧
    sampleNow < youngVerifiedRec.expiryDate ∧
    youngVerifiedRec.isValid sampleNow = false :=
  ⟨rfl, by decide, by decide⟩

/-- **C6** (amended): `canPurchaseRestricted` holds exactly for a
`VERIFIED` record whose `expiryDate` is still in the future and whose
recomputed age is at least 21 (the claimed equivalence), but `isValid`
is `status == VERIFIED && now < expiryDate && age >= 18`, with an
additional age conjunct the claim omits. -/
theorem c6_canPurchaseRestricted_iff (r : AgeVerification) (now : Int) :
    (r.canPurchaseRestricted now = true ↔
      (r.status = Status.VERIFIED ∧ now < r.expiryDate ∧ 21 ≤ r.age now)) ∧
    (r.isValid now = true ↔
      (r.status = Status.VERIFIED ∧ now < r.expiryDate ∧ 18 ≤ r.age now)) := by
  have hvalid : r.isValid now = true ↔
      (r.status = Status.VERIFIED ∧ now < r.expiryDate ∧ 18 ≤ r.age now) := by
    simp [AgeVerification.isValid, and_assoc]
  refine ⟨?_, hvalid⟩
  rw [AgeVerification.canPurchaseRestricted, Bool.and_eq_true, hvalid]
  constructor
  · rintro ⟨⟨h1, h2, h3⟩, h4⟩
    exact ⟨h1, h2, by simpa using h4⟩
  · rintro ⟨h1, h2, h3⟩
    exact ⟨⟨h1, h2, by omega⟩, by simpa using h3⟩

/-- **C7**: when the reviewed document type is acceptable but the date
of birth is unparseable, in the future, more than 120 years past, or
yields an age under 18, the upload fails with the date-of-birth
validation error, stores no asset, and leaves the stored record (or its
absence) untouched. -/
theorem c7_invalid_dob_rejected (existing : Option AgeVerification) (userId : String)
    (input : UploadInput) (file : UploadFile) (now : Int)
    (hdt : validateDocumentType input.documentType = true)
    (hbad : input.dateOfBirth = none ∨
      ∃ d, input.dateOfBirth = some d ∧
        (now < d ∨ d < minBirthDate120 now ∨ calendarAge d now < 18)) :
    uploadAgeVerificationDocument existing userId input file now =
      ⟨Except.error UploadError.invalidDateOfBirth, 0, false⟩ ∧
    uploadState existing userId input file now = existing := by
  have hv : validateAge input.dateOfBirth now = false := by
    rcases hbad with h | ⟨d, hd, hcase⟩
    · rw [h]; rfl
    · rw [hd]
      show (if now < d then false
            else if d < minBirthDate120 now then false
            else decide (18 ≤ calendarAge d now)) = false
      rcases hcase with h1 | h1 | h1
      · rw [if_pos h1]
      · by_cases h2 : now < d
        · rw [if_pos h2]
        · rw [if_neg h2, if_pos h1]
      · by_cases h2 : now < d
        · rw [if_pos h2]
        · rw [if_neg h2]
          by_cases h3 : d < minBirthDate120 now
          · rw [if_pos h3]
          · rw [if_neg h3]
            simpa using by omega
  have hmain : uploadAgeVerificationDocument existing userId input file now =
      ⟨Except.error UploadError.invalidDateOfBirth, 0, false⟩ := by
    simp [uploadAgeVerificationDocument, hdt, hv]
  exact ⟨hmain, by simp [uploadState, hmain]⟩

/-- A submission whose date of birth failed to parse (Invalid Date). -/
def badDobInput : UploadInput := { documentType := "PASSPORT", dateOfBirth := none }

/-- A valid upload file. -/
def goodFile : UploadFile :=
  { mimetype := "image/jpeg", size := 1024, filename := "id.jpg" }

/-- Witness for C7 at an unparseable date of birth with no prior record. -/
theorem c7_invalid_dob_rejected_witness :
    validateDocumentType badDobInput.documentType = true ∧
    (uploadAgeVerificationDocument none "u1" badDobInput goodFile sampleNow =
        ⟨Except.error UploadError.invalidDateOfBirth, 0, false⟩ ∧
      uploadState none "u1" badDobInput goodFile sampleNow = none) :=
  ⟨by decide, c7_invalid_dob_rejected none "u1" badDobInput goodFile sampleNow
    (by decide) (Or.inl rfl)⟩

/-- **C9**: with no stored record, both the status query and the
`User.ageVerification` field resolver answer with `isVerified = false`,
`canPurchaseRestricted = false`, an empty `restrictedItemTypes`, and the
status literal `PENDING` — the same status value a genuinely pending
record reports, with no distinct no-record status. -/
theorem c9_no_record_reports_pending (now : Int) (r : AgeVerification) :
    getAgeVerificationStatus none now =
      { isVerified := false, status := Status.PENDING, canPurchaseRestricted := false,
        restrictedItemTypes := [], verificationExpiryDate := none, age := none } ∧
    ageVerificationField none now =
      { isVerified := false, status := Status.PENDING, canPurchaseRestricted := false,
        restrictedItemTypes := [], verificationExpiryDate := none, age := none } ∧
    (getAgeVerificationStatus (some r) now).status = r.status :=
  ⟨rfl, rfl, rfl⟩

/-- A valid submission by the adult born 1990-01-01. -/
def goodInput : UploadInput :=
  { documentType := "PASSPORT", dateOfBirth := some (dayMs 1990 1 1) }

/-- **C3** counterexample: `lapsedVerifiedRec` is `VERIFIED` with an
`expiryDate` long past `sampleNow`, yet a fully valid resubmission still
fails with the already-verified error and changes nothing — the gate
tests only `status === 'VERIFIED'`, never the expiry. -/
theorem c3_resubmit_lapsed_counterexample :
    lapsedVerifiedRec.status = Status.VERIFIED ∧
    lapsedVerifiedRec.expiryDate < sampleNow ∧
    validateDocumentType goodInput.documentType = true ∧
    validateAge goodInput.dateOfBirth sampleNow = true ∧
    (uploadAgeVerificationDocument (some lapsedVerifiedRec) "u1" goodInput goodFile
        sampleNow).result = Except.error UploadError.alreadyVerified ∧
    uploadState (some lapsedVerifiedRec) "u1" goodInput goodFile sampleNow =
      some lapsedVerifiedRec :=
  ⟨rfl, by decide, by decide, by decide, by decide, by decide⟩

/-- **C3** (amended): for an otherwise valid submission, the gate fails
with `AlreadyVerified` exactly when the existing record's status is
`VERIFIED`, whatever its `expiryDate`; with any other existing status
(`PENDING`, `REJECTED`, `EXPIRED`) the old record is deleted and a fresh
`PENDING` record is created. -/
theorem c3_resubmission_gate (existing : AgeVerification) (userId : String)
    (input : UploadInput) (file : UploadFile) (now dob : Int)
    (hdt : validateDocumentType input.documentType = true)
    (hdob : input.dateOfBirth = some dob)
    (hage : validateAge input.dateOfBirth now = true)
    (hmime : (["image/jpeg", "image/png"] : List String).contains file.mimetype = true)
    (hsize : file.size ≤ 5 * 1024 * 1024) :
    (existing.status = Status.VERIFIED →
      (uploadAgeVerificationDocument (some existing) userId input file now).result =
          Except.error UploadError.alreadyVerified ∧
      uploadState (some existing) userId input file now = some existing) ∧
    (existing.status ≠ Status.VERIFIED →
      uploadAgeVerificationDocument (some existing) userId input file now =
        ⟨Except.ok (newVerificationRecord userId input file dob now), 2, true⟩ ∧
      (newVerificationRecord userId input file dob now).status = Status.PENDING ∧
      uploadState (some existing) userId input file now =
        some (newVerificationRecord userId input file dob now)) := by
  rw [hdob] at hage
  have hmime2 : file.mimetype = "image/jpeg" ∨ file.mimetype = "image/png" := by
    simpa using hmime
  constructor
  · intro hv
    have hmain : uploadAgeVerificationDocument (some existing) userId input file now =
        ⟨Except.error UploadError.alreadyVerified, 0, false⟩ := by
      simp [uploadAgeVerificationDocument, hdt, hage, hdob, hv]
    exact ⟨by rw [hmain], by simp [uploadState, hmain]⟩
  · intro hv
    have hmain : uploadAgeVerificationDocument (some existing) userId input file now =
        ⟨Except.ok (newVerificationRecord userId input file dob now), 2, true⟩ := by
      rcases hmime2 with hm | hm <;>
        simp [uploadAgeVerificationDocument, hdt, hage, hdob, hv, hm] <;> omega
    exact ⟨hmain, rfl, by simp [uploadState, hmain]⟩

/-- Witness for the amended C3: resubmission over a `REJECTED` record
succeeds, over a `VERIFIED` one it is refused. -/
theorem c3_resubmission_gate_witness :
    validateDocumentType goodInput.documentType = true ∧
    goodInput.dateOfBirth = some (dayMs 1990 1 1) ∧
    validateAge goodInput.dateOfBirth sampleNow = true ∧
    (["image/jpeg", "image/png"] : List String).contains goodFile.mimetype = true ∧
    goodFile.size ≤ 5 * 1024 * 1024 ∧
    rejectedRec.status ≠ Status.VERIFIED ∧
    (uploadAgeVerificationDocument (some rejectedRec) "u1" goodInput goodFile sampleNow =
        ⟨Except.ok (newVerificationRecord "u1" goodInput goodFile (dayMs 1990 1 1) sampleNow),
          2, true⟩ ∧
      (newVerificationRecord "u1" goodInput goodFile (dayMs 1990 1 1) sampleNow).status =
        Status.PENDING ∧
      uploadState (some rejectedRec) "u1" goodInput goodFile sampleNow =
        some (newVerificationRecord "u1" goodInput goodFile (dayMs 1990 1 1) sampleNow)) :=
  ⟨by decide, rfl, by decide, by decide, by decide, by decide,
    (c3_resubmission_gate rejectedRec "u1" goodInput goodFile sampleNow (dayMs 1990 1 1)
      (by decide) rfl (by decide) (by decide) (by decide)).2 (by decide)⟩

/-- **C10**: the purchase gate defaults to deny — `false` whenever the
collection holds no `VERIFIED`, unexpired record for the user, and
`false` for any item type outside `TOBACCO`/`ALCOHOL`/`BOTH` even when
such a record exists. -/
theorem c10_purchase_gate_default_deny (recs : List AgeVerification)
    (userId itemType : String) (now : Int) :
    ((∀ r ∈ recs, ¬(r.user = userId ∧ r.status = Status.VERIFIED ∧ now < r.expiryDate)) →
      canUserPurchaseRestricted recs userId itemType now = false) ∧
    (itemType ∉ (["TOBACCO", "ALCOHOL", "BOTH"] : List String) →
      canUserPurchaseRestricted recs userId itemType now = false) := by
  constructor
  · intro hnone
    have hfind : recs.find? (fun r =>
        r.user == userId && r.status == Status.VERIFIED && decide (now < r.expiryDate)) =
          none := by
      rw [List.find?_eq_none]
      intro r hr
      have hn := hnone r hr
      simp only [Bool.and_eq_true, beq_iff_eq, decide_eq_true_eq, not_and]
      intro h1 h2
      exact hn ⟨h1.1, h1.2, h2⟩
    simp [canUserPurchaseRestricted, hfind]
  · intro hnot
    have h1 : itemType ≠ "TOBACCO" := fun h => hnot (by rw [h]; simp)
    have h2 : itemType ≠ "ALCOHOL" := fun h => hnot (by rw [h]; simp)
    have h3 : itemType ≠ "BOTH" := fun h => hnot (by rw [h]; simp)
    unfold canUserPurchaseRestricted
    cases recs.find? (fun r =>
        r.user == userId && r.status == Status.VERIFIED && decide (now < r.expiryDate)) with
    | none => rfl
    | some v => simp [h1, h2, h3]

/-- Witness for C10: denied with only a `PENDING` record on file, and
denied for an unknown item type even with a valid `VERIFIED` record. -/
theorem c10_purchase_gate_default_deny_witness :
    canUserPurchaseRestricted [pendingRec] "u1" "TOBACCO" sampleNow = false ∧
    canUserPurchaseRestricted [youngVerifiedRec] "u1" "CANDY" sampleNow = false :=
  ⟨(c10_purchase_gate_default_deny [pendingRec] "u1" "TOBACCO" sampleNow).1 (by decide),
   (c10_purchase_gate_default_deny [youngVerifiedRec] "u1" "CANDY" sampleNow).2
     (by decide)⟩

/-- A restricted catalog item. -/
def cigarFood : Food :=
  { id := "f1", title := "Cigar", isRestrictedItem := true,
    restrictedItemType := some "TOBACCO" }

/-- The restricted item in a cart. -/
def cigarItem : CartItem := { food := cigarFood, quantity := 1 }

/-- `lapsedVerifiedRec` after the Sweeper would have run:
`status` is `EXPIRED`. -/
def expiredStatusRec : AgeVerification :=
  { lapsedVerifiedRec with status := Status.EXPIRED }

/-- **C2** counterexample: both the lazily-expired `VERIFIED` record and
the `EXPIRED` record block the restricted cart, but no
`VERIFICATION_EXPIRED` warning exists anywhere: the client hook emits
`AGE_VERIFICATION_REQUIRED` for both, and the backend middleware throws
*different* messages for the two (the has-expired text for the lapsed
record, the was-rejected text for the `EXPIRED` one). -/
theorem c2_verification_expired_counterexample :
    ((checkCartRestrictions (some (getAgeVerificationStatus (some lapsedVerifiedRec)
        sampleNow)) [cigarItem]).warnings.map (fun w => w.type) =
      ["AGE_VERIFICATION_REQUIRED"]) ∧
    ((checkCartRestrictions (some (getAgeVerificationStatus (some expiredStatusRec)
        sampleNow)) [cigarItem]).warnings.map (fun w => w.type) =
      ["AGE_VERIFICATION_REQUIRED"]) ∧
    ("AGE_VERIFICATION_REQUIRED" : String) ≠ "VERIFICATION_EXPIRED" ∧
    checkAgeVerificationForItems [lapsedVerifiedRec] "u1" [cigarFood] sampleNow =
      Except.error CartBlock.expiredMsg ∧
    checkAgeVerificationForItems [expiredStatusRec] "u1" [cigarFood] sampleNow =
      Except.error CartBlock.statusRejectedMsg :=
  ⟨by decide, by decide, by decide, by decide, by decide⟩

/-- **C2** (amended): a `VERIFIED` record past its `expiryDate` and an
`EXPIRED` record are both blocked at cart evaluation, independently of
the Sweeper; in the client hook both produce the identical
`AGE_VERIFICATION_REQUIRED` warning (there is no `VERIFICATION_EXPIRED`
warning), while the backend middleware blocks both but with the expired
message only for the still-`VERIFIED` record and the rejected-status
message for the `EXPIRED` one. -/
theorem c2_lazy_expiry_amended (r : AgeVerification) (now : Int) (item : CartItem)
    (f : Food)
    (hexp : (r.status = Status.VERIFIED ∧ r.expiryDate ≤ now) ∨ r.status = Status.EXPIRED)
    (hres : item.food.isRestrictedItem = true)
    (hf : isRestrictedFood f = true) :
    cartItemWarning (some (getAgeVerificationStatus (some r) now)) item =
      some { type := "AGE_VERIFICATION_REQUIRED", itemId := item.food.id } ∧
    (checkCartRestrictions (some (getAgeVerificationStatus (some r) now))
        [item]).canCheckout = false ∧
    checkAgeVerificationForItems [r] r.user [f] now =
      Except.error (if r.status == Status.VERIFIED then CartBlock.expiredMsg
                    else CartBlock.statusRejectedMsg) := by
  have hIsValid : r.isValid now = false := by
    rcases hexp with ⟨h1, h2⟩ | h1
    · simp only [AgeVerification.isValid]
      simp
      rintro - hlt
      omega
    · simp [AgeVerification.isValid, h1]
  have hwarn : cartItemWarning (some (getAgeVerificationStatus (some r) now)) item =
      some { type := "AGE_VERIFICATION_REQUIRED", itemId := item.food.id } := by
    simp [cartItemWarning, clientCanPurchaseRestrictedItem, getAgeVerificationStatus,
      hres, hIsValid]
  have hfind : ([r].find? (fun x => x.user == r.user)) = some r := by simp
  refine ⟨hwarn, by simp [checkCartRestrictions, hwarn], ?_⟩
  rcases hexp with ⟨h1, h2⟩ | h1
  · simp [checkAgeVerificationForItems, hf, hfind, h1, hIsValid]
  · simp [checkAgeVerificationForItems, hf, hfind, h1]

/-- Witness for the amended C2 at the lapsed `VERIFIED` record. -/
theorem c2_lazy_expiry_amended_witness :
    ((lapsedVerifiedRec.status = Status.VERIFIED ∧
        lapsedVerifiedRec.expiryDate ≤ sampleNow) ∨
      lapsedVerifiedRec.status = Status.EXPIRED) ∧
    cigarItem.food.isRestrictedItem = true ∧ isRestrictedFood cigarFood = true ∧
    (cartItemWarning (some (getAgeVerificationStatus (some lapsedVerifiedRec) sampleNow))
        cigarItem =
      some { type := "AGE_VERIFICATION_REQUIRED", itemId := cigarItem.food.id } ∧
    (checkCartRestrictions (some (getAgeVerificationStatus (some lapsedVerifiedRec)
        sampleNow)) [cigarItem]).canCheckout = false ∧
    checkAgeVerificationForItems [lapsedVerifiedRec] lapsedVerifiedRec.user [cigarFood]
        sampleNow =
      Except.error (if lapsedVerifiedRec.status == Status.VERIFIED then
          CartBlock.expiredMsg
        else CartBlock.statusRejectedMsg)) :=
  ⟨Or.inl ⟨rfl, by decide⟩, rfl, by decide,
    c2_lazy_expiry_amended lapsedVerifiedRec sampleNow cigarItem cigarFood
      (Or.inl ⟨rfl, by decide⟩) rfl (by decide)⟩

/-- The review queue as the admin query serves it: every listed record
paired with its `getReviewPriority` annotation. -/
def listPendingAnnotated (recs : List AgeVerification) (limit offset : Nat) (now : Int) :
    List (AgeVerification × Nat) :=
  (getPendingReviews recs limit offset).map (fun r => (r, r.getReviewPriority now))

instance : IsTotal AgeVerification submittedLE :=
  ⟨fun a b => Int.le_total a.submittedAt b.submittedAt⟩

instance : IsTrans AgeVerification submittedLE :=
  ⟨fun _ _ _ => Int.le_trans⟩

/-- **C8**: for every limit and offset the pending-review listing holds
only `PENDING` records, annotated with priority 1 above 48 waiting
hours, 2 above 24, 3 above 12 and 4 otherwise, and is ordered by
ascending `submittedAt` (oldest first). -/
theorem c8_review_queue (recs : List AgeVerification) (limit offset : Nat) (now : Int) :
    (∀ p ∈ listPendingAnnotated recs limit offset now,
        p.1.status = Status.PENDING ∧
        p.2 = (if 48 * 3600000 < now - p.1.submittedAt then (1 : Nat)
               else if 24 * 3600000 < now - p.1.submittedAt then 2
               else if 12 * 3600000 < now - p.1.submittedAt then 3 else 4)) ∧
    (listPendingAnnotated recs limit offset now).Pairwise
      (fun a b => a.1.submittedAt ≤ b.1.submittedAt) := by
  have hsub : List.Sublist (getPendingReviews recs limit offset)
      ((recs.filter (fun x => x.status == Status.PENDING)).insertionSort submittedLE) :=
    (List.take_sublist _ _).trans (List.drop_sublist _ _)
  constructor
  · intro p hp
    rcases List.mem_map.mp hp with ⟨r, hr, hpr⟩
    have hmem : r ∈ recs.filter (fun x => x.status == Status.PENDING) :=
      (List.perm_insertionSort submittedLE _).mem_iff.mp (hsub.subset hr)
    have hpend : r.status = Status.PENDING := by
      simpa using (List.mem_filter.mp hmem).2
    subst hpr
    exact ⟨hpend, rfl⟩
  · unfold listPendingAnnotated
    rw [List.pairwise_map]
    exact List.Pairwise.sublist hsub (List.sorted_insertionSort submittedLE _)

/-- A pending record that has waited about 30 hours at `sampleNow`. -/
def queuedRecA : AgeVerification :=
  { pendingRec with user := "u2", submittedAt := sampleNow - 30 * 3600000 }

/-- A pending record that has waited one hour at `sampleNow`. -/
def queuedRecB : AgeVerification :=
  { pendingRec with user := "u3", submittedAt := sampleNow - 3600000 }

/-- A small record collection, deliberately out of order. -/
def sampleRecs : List AgeVerification := [queuedRecB, queuedRecA, lapsedVerifiedRec]

/-- The queue entry for `queuedRecA`. -/
def queuedRecAnn : AgeVerification × Nat :=
  (queuedRecA, queuedRecA.getReviewPriority sampleNow)

/-- Witness for C8 on the concrete collection. -/
theorem c8_review_queue_witness :
    (queuedRecAnn.1.status = Status.PENDING ∧
      queuedRecAnn.2 = (if 48 * 3600000 < sampleNow - queuedRecAnn.1.submittedAt then (1 : Nat)
        else if 24 * 3600000 < sampleNow - queuedRecAnn.1.submittedAt then 2
        else if 12 * 3600000 < sampleNow - queuedRecAnn.1.submittedAt then 3 else 4)) ∧
    (listPendingAnnotated sampleRecs 5 0 sampleNow).Pairwise
      (fun a b => a.1.submittedAt ≤ b.1.submittedAt) :=
  ⟨(c8_review_queue sampleRecs 5 0 sampleNow).1 queuedRecAnn (by decide),
   (c8_review_queue sampleRecs 5 0 sampleNow).2⟩

end AgeVerif
